import Mathlib

/-!
Verification of the BLE scanner server (src/server/server.py).

The server is a small Flask application with a module-level list
`received_data` as its only state.  We embed the JSON data model and the
three request handlers (`receive_ble_data`, `health_check`, `get_data`) as
pure Lean functions over an explicit store, together with the pieces of
Python semantics the handlers rely on (truthiness, the `in` operator, item
access and assignment, `len`, slicing, `dict.get`, and the success or
failure of `format` with a width specification inside the f-strings that
print the per-sighting log lines).
-/

/-- JSON values as parsed by `request.get_json()`.  Objects are modelled as
association lists in insertion order, which is how Python dicts behave;
numbers are modelled as integers, which covers every value these claims
touch. -/
inductive Json where
  | null
  | bool (b : Bool)
  | num (n : Int)
  | str (s : String)
  | arr (elems : List Json)
  | obj (kvs : List (String × Json))

/-- Python truthiness, as used by `if not data:` in the handler. -/
def pyTruthy : Json → Bool
  | .null => false
  | .bool b => b
  | .num n => n != 0
  | .str s => s != ""
  | .arr xs => !xs.isEmpty
  | .obj kvs => !kvs.isEmpty

/-- First-match lookup in an association list (Python dict access order:
a parsed JSON object never has duplicate keys, so first match is the
unique match). -/
def lookup : List (String × Json) → String → Option Json
  | [], _ => none
  | (k, v) :: rest, key => if k == key then some v else lookup rest key

/-- Python dict item assignment `d[key] = v`: replace the value of an
existing key in place, otherwise append the new binding at the end
(insertion order is preserved, Python 3.7+ semantics). -/
def setKey : List (String × Json) → String → Json → List (String × Json)
  | [], key, v => [(key, v)]
  | (k, w) :: rest, key, v =>
      if k == key then (key, v) :: rest else (k, w) :: setKey rest key v

/-- Whether a JSON value is an object. -/
def isObj : Json → Bool
  | .obj _ => true
  | _ => false

/-- Key membership for objects; false on every other shape. -/
def objHasKey (j : Json) (k : String) : Bool :=
  match j with
  | .obj kvs => kvs.any (fun p => p.1 == k)
  | _ => false

/-- Python string equality of a JSON value against a given string, used by
the `in` operator on lists: `a in xs` compares `a` with each element, and a
Python str is `==` only to an equal str, never to values of other types. -/
def eqStr (k : String) : Json → Bool
  | .str s => s == k
  | _ => false

/-- Python substring test `key in s`. -/
def strContains (s key : String) : Bool :=
  (List.range (s.length + 1)).any
    (fun i => List.isPrefixOf (key.toList) (s.toList.drop i))

/-- Python `key in data` where `key` is a string.  For a dict this is key
membership, for a list it is element membership under `==`, for a string it
is the substring test; on `None`, booleans and numbers the operator raises
`TypeError`, modelled as `none`. -/
def pyIn (key : String) : Json → Option Bool
  | .obj kvs => some (kvs.any (fun p => p.1 == key))
  | .arr xs => some (xs.any (eqStr key))
  | .str s => some (strContains s key)
  | _ => none

/-- Python `data[key]` for a string key: dict lookup (`KeyError`, modelled
as `none`, when absent); every other shape raises `TypeError`. -/
def getItem : Json → String → Option Json
  | .obj kvs, key => lookup kvs key
  | _, _ => none

/-- Python `data[key] = v` for a string key: in-place dict update; every
other shape raises `TypeError`, modelled as `none`. -/
def setItem : Json → String → Json → Option Json
  | .obj kvs, key, v => some (.obj (setKey kvs key v))
  | _, _, _ => none

/-- Python `len`: defined for strings, lists and dicts, `TypeError` on
`None`, booleans and numbers. -/
def pyLen : Json → Option Nat
  | .str s => some s.length
  | .arr xs => some xs.length
  | .obj kvs => some kvs.length
  | _ => none

/-- Python `dict.get(key, default)` as used on each sighting: only a dict
has the `get` attribute, so every other shape raises `AttributeError`
(modelled as `none`). -/
def pyGet (device : Json) (key : String) (default : Json) : Option Json :=
  match device with
  | .obj kvs => some ((lookup kvs key).getD default)
  | _ => none

/-- Whether Python `format(v, spec)` with a plain width specification (as
in the f-string fields padded to widths 15, 17 and 4) succeeds: it does for
str, int, float and bool, and raises `TypeError` for `None`, lists and
dicts.  Vendor is interpolated with no specification and never fails. -/
def fmtOk : Json → Bool
  | .str _ => true
  | .num _ => true
  | .bool _ => true
  | _ => false

/-- Iterating `data[devices][:5]`: a list slice yields its first five
elements, a string slice yields its first five characters (each a
one-character string); slicing `None`, booleans, numbers or dicts raises
`TypeError`, modelled as `none`. -/
def sliceFive : Json → Option (List Json)
  | .arr xs => some (xs.take 5)
  | .str s => some ((s.toList.take 5).map (fun c => Json.str (String.mk [c])))
  | _ => none

/-- One line of the log printed by the ingestion handler.  Each constructor
carries exactly the data interpolated into the corresponding `print` of the
source: the header with the device id, the sighting count, one detail line
per listed sighting (1-based index, name, mac, rssi, vendor), and the
`... and N more devices` line. -/
inductive LogLine where
  | header (deviceId : Json)
  | count (n : Nat)
  | detail (i : Nat) (name mac rssi vendor : Json)
  | more (n : Nat)

/-- The detail print for one sighting: the four `.get` calls in source
order, then the f-string whose width specifications must all accept the
values; `none` models the exception path (non-dict sighting or
unformattable value). -/
def logSighting (i : Nat) (device : Json) : Option LogLine := do
  let name ← pyGet device "name" (.str "Unknown")
  let mac ← pyGet device "mac" (.str "N/A")
  let rssi ← pyGet device "rssi" (.str "N/A")
  let vendor ← pyGet device "vendor" (.str "")
  if fmtOk name && fmtOk mac && fmtOk rssi then
    some (.detail i name mac rssi vendor)
  else
    none

/-- The detail loop over the sliced sightings, with 1-based enumeration.
Returns the lines printed before any exception, and whether the loop ran to
completion. -/
def logDetails (i : Nat) : List Json → List LogLine × Bool
  | [] => ([], true)
  | d :: ds =>
    match logSighting i d with
    | none => ([], false)
    | some line =>
      let rest := logDetails (i + 1) ds
      (line :: rest.1, rest.2)

/-- The response of the ingestion handler: 200 with the received count,
400 with an error message, or 500 (whose message, the stringified
exception, the claims never inspect). -/
inductive Resp where
  | ok (received : Nat)
  | badRequest (msg : String)
  | internalError
deriving DecidableEq

/-- Result of one call of the ingestion handler: the HTTP response, the
store after the call, and the log lines printed. -/
structure IngestResult where
  resp : Resp
  store : List Json
  log : List LogLine

/-- The part of `receive_ble_data` after `received_data.append(data)`
(src/server/server.py lines 51 to 74): compute the device count, print the
summary and detail lines, and answer 200, converting any raised exception
to a 500 response.  `stamped` is the payload carrying the freshly assigned
received_at field, `store1` the store that already contains it; the store
is never modified in this region. -/
def summarizeAndRespond (stamped : Json) (store1 : List Json) : IngestResult :=
  match getItem stamped "devices" with
  | none => ⟨.internalError, store1, []⟩
  | some devices =>
    match pyLen devices with
    | none => ⟨.internalError, store1, []⟩
    | some deviceCount =>
      match getItem stamped "device_id" with
      | none => ⟨.internalError, store1, []⟩
      | some did =>
        let log0 := [LogLine.header did, LogLine.count deviceCount]
        match sliceFive devices with
        | none => ⟨.internalError, store1, log0⟩
        | some elems =>
          let details := logDetails 1 elems
          if !details.2 then
            ⟨.internalError, store1, log0 ++ details.1⟩
          else
            let log1 := log0 ++ details.1
            if deviceCount > 5 then
              ⟨.ok deviceCount, store1, log1 ++ [LogLine.more (deviceCount - 5)]⟩
            else
              ⟨.ok deviceCount, store1, log1⟩

/-- The ingestion handler `receive_ble_data` of src/server/server.py,
line by line.  `data?` is the result of `request.get_json()` (`none` when
the framework hands the handler `None`), `now` the ISO-8601 string
`datetime.now().isoformat()` read at ingestion time, `store` the current
`received_data` list.  Every exception raised inside the `try` block is
caught by the handler and converted to a 500 response, with the store as it
was at the moment the exception was raised. -/
def receive_ble_data (data? : Option Json) (now : String) (store : List Json) :
    IngestResult :=
  match data? with
  | none => ⟨.badRequest "No data provided", store, []⟩
  | some data =>
    if !pyTruthy data then
      ⟨.badRequest "No data provided", store, []⟩
    else
      match pyIn "device_id" data with
      | none => ⟨.internalError, store, []⟩
      | some hasDid =>
        if !hasDid then
          ⟨.badRequest "Missing required fields", store, []⟩
        else
          match pyIn "devices" data with
          | none => ⟨.internalError, store, []⟩
          | some hasDevs =>
            if !hasDevs then
              ⟨.badRequest "Missing required fields", store, []⟩
            else
              match setItem data "received_at" (.str now) with
              | none => ⟨.internalError, store, []⟩
              | some stamped => summarizeAndRespond stamped (store ++ [stamped])

/-- Response of the health endpoint. -/
structure HealthResp where
  status : String
  timestamp : String
  devices_received : Nat
deriving DecidableEq

/-- The health endpoint `health_check`: always succeeds, reports the
current time and the length of `received_data`. -/
def health_check (store : List Json) (now : String) : HealthResp :=
  ⟨"ok", now, store.length⟩

/-- Response of the data dump endpoint. -/
structure DataResp where
  total_uploads : Nat
  data : List Json

/-- The data dump endpoint `get_data`: the length of `received_data` and
the list itself. -/
def get_data (store : List Json) : DataResp :=
  ⟨store.length, store⟩

/-- One inbound HTTP request, with the clock readings it observes. -/
inductive Request where
  | ingest (data? : Option Json) (now : String)
  | health (now : String)
  | dataDump
  | indexPage

/-- Store transition of one request: only ingestion can change the store;
the three GET handlers are read-only. -/
def stepStore (store : List Json) : Request → List Json
  | .ingest d? now => (receive_ble_data d? now store).store
  | _ => store

/-- The store after a sequence of requests, starting from the empty list
the process boots with. -/
def runStore (reqs : List Request) : List Json :=
  List.foldl stepStore [] reqs

/-- Whether a response is a 200 success. -/
def isOk : Resp → Bool
  | .ok _ => true
  | _ => false

/-- Fold step tracking both the store and the number of ingestions that
were answered with a 200 success response. -/
def stepAcc (sc : List Json × Nat) : Request → List Json × Nat
  | .ingest d? now =>
      let r := receive_ble_data d? now sc.1
      (r.store, if isOk r.resp then sc.2 + 1 else sc.2)
  | _ => sc

/-- Store and accepted-ingestion count after a sequence of requests. -/
def runAcc (reqs : List Request) : List Json × Nat :=
  List.foldl stepAcc ([], 0) reqs

/-- The conditions under which the detail print succeeds for one sighting:
it must be a dict, and its name, mac and rssi values (after the `.get`
defaults) must accept a width format specification. -/
def printableSighting : Json → Bool
  | .obj kvs =>
      fmtOk ((lookup kvs "name").getD (.str "Unknown")) &&
      fmtOk ((lookup kvs "mac").getD (.str "N/A")) &&
      fmtOk ((lookup kvs "rssi").getD (.str "N/A"))
  | _ => false

/-- Whether a log line is a per-sighting detail line. -/
def isDetailLine : LogLine → Bool
  | .detail _ _ _ _ _ => true
  | _ => false

/-- Whether a log line is the `... and N more devices` line. -/
def isMoreLine : LogLine → Bool
  | .more _ => true
  | _ => false

/-- Number of per-sighting detail lines in a log. -/
def detailCount (log : List LogLine) : Nat :=
  (log.filter isDetailLine).length

/-- The `... and N more devices` lines of a log, in order. -/
def moreLines (log : List LogLine) : List LogLine :=
  log.filter isMoreLine

/-- Lexicographic order on character lists.  Two ISO-8601 timestamps
produced by `datetime.isoformat` on the same clock compare
chronologically exactly when they compare lexicographically. -/
def charListLe : List Char → List Char → Bool
  | [], _ => true
  | _ :: _, [] => false
  | a :: as, b :: bs => if a < b then true else if b < a then false else charListLe as bs

/-- Lexicographic comparison of timestamp strings. -/
def isoLe (a b : String) : Bool :=
  charListLe a.toList b.toList

/-- The invariant a stored Report actually maintains: it is a JSON object
that contains the keys device_id and devices (with values of any type),
and its received_at value is a timestamp string at or after process start.
-/
def ReportOk (start : String) (r : Json) : Prop :=
  objHasKey r "device_id" = true ∧ objHasKey r "devices" = true ∧
  ∃ t, getItem r "received_at" = some (.str t) ∧ isoLe start t = true

/-- The store invariant: every stored report satisfies `ReportOk`. -/
def StoreInv (start : String) (store : List Json) : Prop :=
  ∀ r ∈ store, ReportOk start r

/-- A sighting used by concrete witnesses: well-formed name, mac, rssi and
vendor fields. -/
def sampleSighting : Json :=
  .obj [("name", .str "Phone"), ("mac", .str "AA:BB:CC:DD:EE:FF"),
        ("rssi", .num (-60)), ("vendor", .str "Acme")]

/-- Witness payload for C1: one well-formed sighting. -/
def c1Payload : Json :=
  .obj [("device_id", .str "esp32-1"), ("devices", .arr [sampleSighting])]

/-- Counterexample payload for C1: both keys present but the devices value
is a number, on which `len` raises. -/
def c1Cex : Json :=
  .obj [("device_id", .str "d"), ("devices", .num 2)]

/-- Counterexample payload for C3: a truthy JSON value that is not an
object. -/
def c3Cex : Json :=
  .arr [.num 1, .num 2, .num 3]

/-- Counterexample payload for C4: validation passes, the report is
appended, then `len` of the numeric devices value raises. -/
def c4Cex : Json :=
  .obj [("device_id", .str "dev"), ("devices", .num 7)]

/-- Counterexample payload for C5: the device_id key is present but its
value is JSON null; the payload is accepted and stored as is. -/
def c5Cex : Json :=
  .obj [("device_id", .null), ("devices", .arr [])]

/-- Counterexample payload for C6: stored by the handler although the
response is a 500 error, so the dump lists a report no request had
acknowledged. -/
def c6Cex : Json :=
  .obj [("device_id", .str "x"), ("devices", .bool true)]

/-- Counterexample payload for C7: same phenomenon as C6, through the
health endpoint count. -/
def c7Cex : Json :=
  .obj [("device_id", .str "y"), ("devices", .null)]

/-- Payload with six well-formed sightings, used for the C9 witness. -/
def c9Payload : Json :=
  .obj [("device_id", .str "six"),
        ("devices", .arr [sampleSighting, sampleSighting, sampleSighting,
                          sampleSighting, sampleSighting, sampleSighting])]

/-- Counterexample payload for C10: devices is a non-empty string; its
characters are iterated by the detail loop and `.get` on a character
raises, so the request is answered 500, not accepted. -/
def c10Cex : Json :=
  .obj [("device_id", .str "x"), ("devices", .str "abc")]

/-- Witness payload bindings for C10: devices is the empty string, the one
non-list value the handler fully accepts. -/
def c10Kvs : List (String × Json) :=
  [("device_id", .str "x"), ("devices", .str "")]

/-! ## Association list lemmas -/

theorem lookup_setKey_self (kvs : List (String × Json)) (k : String) (v : Json) :
    lookup (setKey kvs k v) k = some v := by
  induction kvs with
  | nil => simp [setKey, lookup]
  | cons p rest ih =>
    by_cases h : p.1 = k
    · simp [setKey, lookup, h]
    · simp only [setKey]
      rw [if_neg (by simpa using h)]
      simp only [lookup]
      rw [if_neg (by simpa using h)]
      exact ih

theorem lookup_setKey_ne (kvs : List (String × Json)) (k k' : String) (v : Json)
    (h : k ≠ k') : lookup (setKey kvs k v) k' = lookup kvs k' := by
  induction kvs with
  | nil =>
    simp only [setKey, lookup]
    rw [if_neg (by simpa using h)]
  | cons p rest ih =>
    by_cases hp : p.1 = k
    · simp only [setKey]
      rw [if_pos (by simpa using hp)]
      simp only [lookup]
      rw [if_neg (by simpa using h), if_neg (by simp [hp]; exact h)]
    · simp only [setKey]
      rw [if_neg (by simpa using hp)]
      simp only [lookup]
      by_cases hq : p.1 = k'
      · rw [if_pos (by simpa using hq), if_pos (by simpa using hq)]
      · rw [if_neg (by simpa using hq), if_neg (by simpa using hq)]
        exact ih

theorem any_setKey_ne (kvs : List (String × Json)) (k k' : String) (v : Json)
    (h : k ≠ k') :
    (setKey kvs k v).any (fun p => p.1 == k') = kvs.any (fun p => p.1 == k') := by
  induction kvs with
  | nil =>
    simp [setKey]
    exact fun hc => absurd hc h
  | cons p rest ih =>
    by_cases hp : p.1 = k
    · simp only [setKey]
      rw [if_pos (by simpa using hp)]
      simp [List.any_cons, hp]
    · simp only [setKey]
      rw [if_neg (by simpa using hp)]
      simp [List.any_cons, ih]

theorem lookup_isSome_of_any (kvs : List (String × Json)) (k : String)
    (h : kvs.any (fun p => p.1 == k) = true) : (lookup kvs k).isSome = true := by
  induction kvs with
  | nil => simp at h
  | cons p rest ih =>
    simp only [List.any_cons, Bool.or_eq_true] at h
    rcases h with h | h
    · simp only [lookup]
      rw [if_pos (by simpa using h)]
      rfl
    · simp only [lookup]
      by_cases hq : p.1 = k
      · rw [if_pos (by simpa using hq)]; rfl
      · rw [if_neg (by simpa using hq)]
        exact ih h

theorem any_of_lookup_some (kvs : List (String × Json)) (k : String) (v : Json)
    (h : lookup kvs k = some v) : kvs.any (fun p => p.1 == k) = true := by
  induction kvs with
  | nil => simp [lookup] at h
  | cons p rest ih =>
    simp only [lookup] at h
    by_cases hq : p.1 = k
    · simp [List.any_cons, hq]
    · rw [if_neg (by simpa using hq)] at h
      simp [List.any_cons, ih h]

theorem isEmpty_false_of_lookup_some (kvs : List (String × Json)) (k : String)
    (v : Json) (h : lookup kvs k = some v) : kvs.isEmpty = false := by
  cases kvs with
  | nil => simp [lookup] at h
  | cons p rest => rfl

/-! ## Log lemmas -/

theorem logSighting_isSome (i : Nat) (d : Json) :
    (logSighting i d).isSome = printableSighting d := by
  cases d <;> simp [logSighting, printableSighting, pyGet, bind, Option.bind]
  split <;> simp_all

theorem logDetails_true_of_printable (l : List Json) (i : Nat)
    (h : ∀ d ∈ l, printableSighting d = true) : (logDetails i l).2 = true := by
  induction l generalizing i with
  | nil => rfl
  | cons d ds ih =>
    have hd : (logSighting i d).isSome = true := by
      rw [logSighting_isSome]; exact h d (by simp)
    rcases hs : logSighting i d with _ | line
    · rw [hs] at hd; simp at hd
    · simp only [logDetails, hs]
      exact ih (i + 1) (fun x hx => h x (by simp [hx]))

theorem logDetails_length (l : List Json) (i : Nat)
    (h : (logDetails i l).2 = true) : (logDetails i l).1.length = l.length := by
  induction l generalizing i with
  | nil => rfl
  | cons d ds ih =>
    rcases hs : logSighting i d with _ | line
    · simp only [logDetails, hs] at h
      exact absurd h (by simp)
    · simp only [logDetails, hs] at h ⊢
      simp [ih (i + 1) h]

theorem isDetailLine_of_logSighting (i : Nat) (d : Json) (x : LogLine)
    (h : logSighting i d = some x) : isDetailLine x = true := by
  cases d <;> simp [logSighting, pyGet, bind, Option.bind] at h
  rcases h with ⟨-, rfl⟩
  rfl

theorem logDetails_all_detail (l : List Json) (i : Nat) :
    ∀ x ∈ (logDetails i l).1, isDetailLine x = true := by
  induction l generalizing i with
  | nil => simp [logDetails]
  | cons d ds ih =>
    rcases hs : logSighting i d with _ | line
    · simp [logDetails, hs]
    · simp only [logDetails, hs, List.mem_cons]
      rintro x (rfl | hx)
      · exact isDetailLine_of_logSighting i d x hs
      · exact ih (i + 1) x hx

/-! ## Structure of the setItem result -/

theorem setItem_eq_some (j j' : Json) (k : String) (v : Json)
    (h : setItem j k v = some j') :
    ∃ kvs, j = .obj kvs ∧ j' = .obj (setKey kvs k v) := by
  cases j <;> simp [setItem] at h
  exact ⟨_, rfl, h.symm⟩

/-! ## Structural lemmas about one ingestion call -/

theorem summarize_store (stamped : Json) (store1 : List Json) :
    (summarizeAndRespond stamped store1).store = store1 := by
  unfold summarizeAndRespond
  repeat' split
  all_goals first
    | rfl
    | (dsimp only; split <;> rfl)

theorem summarize_not_badRequest (stamped : Json) (store1 : List Json)
    (msg : String) : (summarizeAndRespond stamped store1).resp ≠ .badRequest msg := by
  unfold summarizeAndRespond
  repeat' split
  all_goals intro h
  all_goals first
    | (simp at h; done)
    | (revert h; dsimp only; split
       all_goals intro h
       all_goals simp at h)

/-- Case analysis on one ingestion call: either the store is untouched, or
the payload was a truthy object containing both required keys and the
handler appended exactly the stamped payload and continued with the
summary-and-response region. -/
theorem receive_cases (d? : Option Json) (now : String) (store : List Json) :
    (receive_ble_data d? now store).store = store ∨
    ∃ kvs, d? = some (.obj kvs) ∧
      kvs.any (fun p => p.1 == "device_id") = true ∧
      kvs.any (fun p => p.1 == "devices") = true ∧
      receive_ble_data d? now store =
        summarizeAndRespond (.obj (setKey kvs "received_at" (.str now)))
          (store ++ [.obj (setKey kvs "received_at" (.str now))]) := by
  unfold receive_ble_data
  rcases d? with _ | data
  · exact Or.inl rfl
  · dsimp only
    by_cases ht : pyTruthy data = true
    · rw [ht]
      simp only [Bool.not_true, Bool.false_eq_true, if_false]
      rcases h1 : pyIn "device_id" data with _ | hasDid
      · exact Or.inl rfl
      · dsimp only
        cases hasDid with
        | false => exact Or.inl rfl
        | true =>
          simp only [Bool.not_true, Bool.false_eq_true, if_false]
          rcases h2 : pyIn "devices" data with _ | hasDevs
          · exact Or.inl rfl
          · dsimp only
            cases hasDevs with
            | false => exact Or.inl rfl
            | true =>
              simp only [Bool.not_true, Bool.false_eq_true, if_false]
              rcases hset : setItem data "received_at" (.str now) with _ | stamped
              · exact Or.inl rfl
              · obtain ⟨kvs, rfl, hst⟩ := setItem_eq_some _ _ _ _ hset
                subst hst
                refine Or.inr ⟨kvs, rfl, ?_, ?_, rfl⟩
                · simpa [pyIn] using h1
                · simpa [pyIn] using h2
    · have ht' : pyTruthy data = false := by
        revert ht; cases pyTruthy data <;> simp
      rw [ht']
      exact Or.inl rfl

theorem receive_store_extends (d? : Option Json) (now : String) (store : List Json) :
    ∃ t, (receive_ble_data d? now store).store = store ++ t := by
  rcases receive_cases d? now store with h | ⟨kvs, _, _, _, h⟩
  · exact ⟨[], by rw [h, store.append_nil]⟩
  · exact ⟨[.obj (setKey kvs "received_at" (.str now))], by rw [h, summarize_store]⟩

theorem receive_append_at_most_one (d? : Option Json) (now : String)
    (store : List Json) :
    (receive_ble_data d? now store).store = store ∨
      ∃ r, (receive_ble_data d? now store).store = store ++ [r] := by
  rcases receive_cases d? now store with h | ⟨kvs, _, _, _, h⟩
  · exact Or.inl h
  · exact Or.inr ⟨_, by rw [h, summarize_store]⟩

theorem receive_ok_extends (d? : Option Json) (now : String) (store : List Json) :
    isOk (receive_ble_data d? now store).resp = true →
      ∃ r, (receive_ble_data d? now store).store = store ++ [r] := by
  unfold receive_ble_data
  rcases d? with _ | data
  · intro h; simp [isOk] at h
  · dsimp only
    repeat' split
    all_goals intro h
    all_goals first
      | exact ⟨_, summarize_store _ _⟩
      | simp [isOk] at h

theorem receive_badRequest_unchanged (d? : Option Json) (now : String)
    (store : List Json) (msg : String) :
    (receive_ble_data d? now store).resp = .badRequest msg →
      (receive_ble_data d? now store).store = store := by
  unfold receive_ble_data
  rcases d? with _ | data
  · intro _; rfl
  · dsimp only
    repeat' split
    all_goals intro h
    all_goals first
      | rfl
      | simp at h
      | exact absurd h (summarize_not_badRequest _ _ msg)

/-! ## Structural lemmas about request sequences -/

theorem stepStore_extends (s : List Json) (r : Request) :
    ∃ t, stepStore s r = s ++ t := by
  cases r with
  | ingest d? now => exact receive_store_extends d? now s
  | health now => exact ⟨[], (s.append_nil).symm⟩
  | dataDump => exact ⟨[], (s.append_nil).symm⟩
  | indexPage => exact ⟨[], (s.append_nil).symm⟩

theorem foldl_stepStore_extends (more : List Request) (s : List Json) :
    ∃ t, List.foldl stepStore s more = s ++ t := by
  induction more generalizing s with
  | nil => exact ⟨[], (s.append_nil).symm⟩
  | cons r rs ih =>
    obtain ⟨d, hd⟩ := stepStore_extends s r
    obtain ⟨t, ht⟩ := ih (stepStore s r)
    exact ⟨d ++ t, by rw [List.foldl_cons, ht, hd, List.append_assoc]⟩

theorem foldl_stepAcc_le (reqs : List Request) (s : List Json) (k : Nat)
    (h : k ≤ s.length) :
    (List.foldl stepAcc (s, k) reqs).2 ≤ (List.foldl stepAcc (s, k) reqs).1.length := by
  induction reqs generalizing s k with
  | nil => exact h
  | cons r rs ih =>
    cases r with
    | ingest d? now =>
      rw [List.foldl_cons]
      show (List.foldl stepAcc
        ((receive_ble_data d? now s).store,
          if isOk (receive_ble_data d? now s).resp then k + 1 else k) rs).2 ≤ _
      apply ih
      by_cases hOk : isOk (receive_ble_data d? now s).resp = true
      · obtain ⟨r', hr'⟩ := receive_ok_extends d? now s hOk
        rw [if_pos hOk, hr']
        simpa using h
      · obtain ⟨t, ht⟩ := receive_store_extends d? now s
        rw [if_neg hOk, ht]
        simp only [List.length_append]
        omega
    | health now => rw [List.foldl_cons]; exact ih s k h
    | dataDump => rw [List.foldl_cons]; exact ih s k h
    | indexPage => rw [List.foldl_cons]; exact ih s k h

/-! ## Claim theorems -/

/-- C2: for every payload that parses as a truthy JSON object but misses
the device_id key or the devices key, the handler answers 400 with body
error Missing required fields, prints nothing, and leaves the store
unchanged. -/
theorem C2_missing_fields_rejected (kvs : List (String × Json)) (now : String)
    (store : List Json)
    (ht : pyTruthy (.obj kvs) = true)
    (hmiss : kvs.any (fun p => p.1 == "device_id") = false ∨
             kvs.any (fun p => p.1 == "devices") = false) :
    receive_ble_data (some (.obj kvs)) now store =
      ⟨.badRequest "Missing required fields", store, []⟩ := by
  unfold receive_ble_data
  rcases hmiss with h | h
  · simp [pyIn, ht, h]
  · by_cases h1 : kvs.any (fun p => p.1 == "device_id") = true
    · simp [pyIn, ht, h, h1]
    · have h1' : kvs.any (fun p => p.1 == "device_id") = false := by
        revert h1; cases kvs.any (fun p => p.1 == "device_id") <;> simp
      simp [pyIn, ht, h1']

/-- Witness for C2 at the concrete payload containing only device_id. -/
theorem C2_witness :
    receive_ble_data (some (.obj [("device_id", .str "x")])) "t0" [] =
      ⟨.badRequest "Missing required fields", [], []⟩ :=
  C2_missing_fields_rejected [("device_id", .str "x")] "t0" [] rfl
    (Or.inr (by decide))

/-- C3 counterexample: the body that parses to the truthy JSON array
1, 2, 3 is not an object, yet the handler answers Missing required fields,
not No data provided, because the Python in operator also works on lists.
-/
theorem C3_counterexample :
    pyTruthy c3Cex = true ∧ isObj c3Cex = false ∧
    receive_ble_data (some c3Cex) "t0" [] =
      ⟨.badRequest "Missing required fields", [], []⟩ ∧
    (receive_ble_data (some c3Cex) "t0" []).resp ≠
      .badRequest "No data provided" :=
  ⟨rfl, rfl, rfl, by decide⟩

/-- C3 amended: for every request whose body is handed to the handler as
None or parses to a falsy JSON value (empty object, empty array, empty
string, zero, false or null), the handler answers 400 No data provided,
prints nothing, and leaves the store unchanged. -/
theorem C3_falsy_rejected (d? : Option Json) (now : String) (store : List Json)
    (h : d? = none ∨ ∃ j, d? = some j ∧ pyTruthy j = false) :
    receive_ble_data d? now store =
      ⟨.badRequest "No data provided", store, []⟩ := by
  rcases h with rfl | ⟨j, rfl, hj⟩
  · rfl
  · unfold receive_ble_data
    simp [hj]

/-- Witness for C3 at the empty JSON object. -/
theorem C3_witness :
    receive_ble_data (some (.obj [])) "t0" [] =
      ⟨.badRequest "No data provided", [], []⟩ :=
  C3_falsy_rejected (some (.obj [])) "t0" [] (Or.inr ⟨.obj [], rfl, rfl⟩)

/-- C4 counterexample: the payload with device_id dev and numeric devices
value 7 passes validation, is appended to the store, and only then does
len raise, so the handler answers 500 while the store has grown by one. -/
theorem C4_counterexample :
    (receive_ble_data (some c4Cex) "t0" []).resp = .internalError ∧
    (receive_ble_data (some c4Cex) "t0" []).store.length = 1 :=
  ⟨rfl, rfl⟩

/-- C4 amended: every BadRequest response leaves the store exactly as it
was, and any single call leaves the store unchanged or appends exactly one
report; but an InternalError response may leave that one appended report
behind, so ingestion is not atomic with respect to 500 responses. -/
theorem C4_badRequest_atomic_append_at_most_one (d? : Option Json)
    (now : String) (store : List Json) :
    (∀ msg, (receive_ble_data d? now store).resp = .badRequest msg →
      (receive_ble_data d? now store).store = store) ∧
    ((receive_ble_data d? now store).store = store ∨
      ∃ r, (receive_ble_data d? now store).store = store ++ [r]) :=
  ⟨fun msg => receive_badRequest_unchanged d? now store msg,
   receive_append_at_most_one d? now store⟩

/-- Witness for C4 at a concrete rejected payload. -/
theorem C4_witness :
    (receive_ble_data (some (.obj [])) "t1" [c4Cex]).store = [c4Cex] :=
  (C4_badRequest_atomic_append_at_most_one (some (.obj [])) "t1" [c4Cex]).1
    "No data provided" rfl

/-! ## Further log lemmas -/

theorem not_more_of_detail (x : LogLine) (h : isDetailLine x = true) :
    isMoreLine x = false := by
  cases x <;> simp [isDetailLine, isMoreLine] at h ⊢

theorem sliceFive_length (devices : Json) (elems : List Json) (n : Nat)
    (h1 : sliceFive devices = some elems) (h2 : pyLen devices = some n) :
    elems.length = min 5 n := by
  cases devices <;> simp [sliceFive, pyLen] at h1 h2
  · subst h2; rw [← h1]
    simp [List.length_take]
  · subst h2; rw [← h1]
    exact List.length_take 5 _

/-- Shape of the log on any 200 response of the summary region: exactly
min 5 n detail lines, the more-line present exactly when n exceeds 5 and
carrying n minus 5, and a stored devices value of length n. -/
theorem summarize_ok_log (stamped : Json) (store1 : List Json) (n : Nat) :
    (summarizeAndRespond stamped store1).resp = .ok n →
      detailCount (summarizeAndRespond stamped store1).log = min 5 n ∧
      moreLines (summarizeAndRespond stamped store1).log =
        (if 5 < n then [LogLine.more (n - 5)] else []) ∧
      ∃ devs, getItem stamped "devices" = some devs ∧ pyLen devs = some n := by
  intro h
  unfold summarizeAndRespond at h ⊢
  rcases hdev : getItem stamped "devices" with _ | devices
  all_goals (try simp only [hdev] at h ⊢)
  · simp at h
  rcases hlen : pyLen devices with _ | m
  all_goals (try simp only [hlen] at h ⊢)
  · simp at h
  rcases hdid : getItem stamped "device_id" with _ | did
  all_goals (try simp only [hdid] at h ⊢)
  · simp at h
  rcases hsl : sliceFive devices with _ | elems
  all_goals (try simp only [hsl] at h ⊢)
  · simp at h
  cases hb : (logDetails 1 elems).2
  all_goals (try simp only [hb, Bool.not_false, Bool.not_true,
    Bool.false_eq_true, if_false, if_true] at h ⊢)
  · simp at h
  have hall : (logDetails 1 elems).1.filter isDetailLine
      = (logDetails 1 elems).1 :=
    List.filter_eq_self.mpr (fun x hx => logDetails_all_detail elems 1 x hx)
  have hnone : (logDetails 1 elems).1.filter isMoreLine = [] := by
    rw [List.filter_eq_nil_iff]
    intro x hx
    simp [not_more_of_detail x (logDetails_all_detail elems 1 x hx)]
  have hlen5 : (logDetails 1 elems).1.length = min 5 m := by
    rw [logDetails_length elems 1 hb]
    exact sliceFive_length devices elems m hsl hlen
  by_cases h5 : m > 5
  all_goals simp only [if_pos, if_neg, h5, if_true, if_false] at h ⊢
  · have hnm : m = n := by injection h
    subst hnm
    refine ⟨?_, ?_, devices, rfl, hlen⟩
    · simp [detailCount, List.filter_append, isDetailLine, hall, hlen5, if_pos h5]
    · simp [moreLines, List.filter_append, isMoreLine, hnone, if_pos h5]
  · have hnm : m = n := by injection h
    subst hnm
    refine ⟨?_, ?_, devices, rfl, hlen⟩
    · simp [detailCount, List.filter_append, isDetailLine, hall, hlen5, if_neg h5]
    · simp [moreLines, List.filter_append, isMoreLine, hnone, if_neg h5]

/-- One ingestion call preserves the store invariant, provided its clock
reading is at or after process start. -/
theorem receive_preserves_inv (start : String) (d? : Option Json)
    (now : String) (store : List Json)
    (hnow : isoLe start now = true) (hinv : StoreInv start store) :
    StoreInv start (receive_ble_data d? now store).store := by
  rcases receive_cases d? now store with h | ⟨kvs, _, hk1, hk2, h⟩
  · rw [h]; exact hinv
  · rw [h, summarize_store]
    intro r hr
    rcases List.mem_append.mp hr with hr | hr
    · exact hinv r hr
    · have hr' : r = .obj (setKey kvs "received_at" (.str now)) := by
        simpa using hr
      subst hr'
      refine ⟨?_, ?_, now, ?_, hnow⟩
      · show (setKey kvs "received_at" (.str now)).any
          (fun p => p.1 == "device_id") = true
        rw [any_setKey_ne _ _ _ _ (by decide)]; exact hk1
      · show (setKey kvs "received_at" (.str now)).any
          (fun p => p.1 == "devices") = true
        rw [any_setKey_ne _ _ _ _ (by decide)]; exact hk2
      · show lookup (setKey kvs "received_at" (.str now)) "received_at"
          = some (.str now)
        exact lookup_setKey_self _ _ _

/-- C1 counterexample: the payload with device_id d and numeric devices
value 2 is a non-empty JSON object containing both required keys, yet the
handler answers 500, not a success response, because len raises on the
number. -/
theorem C1_counterexample :
    pyTruthy c1Cex = true ∧ objHasKey c1Cex "device_id" = true ∧
    objHasKey c1Cex "devices" = true ∧
    isOk (receive_ble_data (some c1Cex) "t0" []).resp = false ∧
    (receive_ble_data (some c1Cex) "t0" []).resp = .internalError :=
  ⟨rfl, rfl, rfl, rfl, rfl⟩

/-- C1 amended: for every payload object containing both keys whose
devices value is an array whose first five entries are printable sightings
(dicts whose name, mac and rssi values, after defaults, are strings,
numbers or booleans), the handler appends exactly the stamped payload
(the store grows by exactly one) and answers 200 with received equal to
the number of sightings. -/
theorem C1_accepted_appends_one (kvs : List (String × Json)) (xs : List Json)
    (now : String) (store : List Json) (did : Json)
    (hdid : lookup kvs "device_id" = some did)
    (hdev : lookup kvs "devices" = some (.arr xs))
    (hpr : ∀ d ∈ xs.take 5, printableSighting d = true) :
    (receive_ble_data (some (.obj kvs)) now store).store
        = store ++ [.obj (setKey kvs "received_at" (.str now))] ∧
    (receive_ble_data (some (.obj kvs)) now store).resp = .ok xs.length := by
  have ht : pyTruthy (.obj kvs) = true := by
    simp [pyTruthy, isEmpty_false_of_lookup_some kvs "devices" _ hdev]
  have h1 : kvs.any (fun p => p.1 == "device_id") = true :=
    any_of_lookup_some _ _ _ hdid
  have h2 : kvs.any (fun p => p.1 == "devices") = true :=
    any_of_lookup_some _ _ _ hdev
  have hdev2 : lookup (setKey kvs "received_at" (.str now)) "devices"
      = some (.arr xs) := by
    rw [lookup_setKey_ne _ _ _ _ (by decide)]; exact hdev
  have hdid2 : lookup (setKey kvs "received_at" (.str now)) "device_id"
      = some did := by
    rw [lookup_setKey_ne _ _ _ _ (by decide)]; exact hdid
  have hld : (logDetails 1 (xs.take 5)).2 = true :=
    logDetails_true_of_printable _ 1 hpr
  unfold receive_ble_data summarizeAndRespond
  simp only [pyIn, setItem, getItem, pyLen, sliceFive, ht, h1, h2, hdev2, hdid2,
    hld, Bool.not_true, Bool.false_eq_true, if_false]
  by_cases h5 : xs.length > 5 <;> simp [h5]

/-- Witness for C1 at a one-sighting payload. -/
theorem C1_witness :
    (receive_ble_data (some (.obj [("device_id", .str "esp32-1"),
        ("devices", .arr [sampleSighting])])) "t0" []).resp = .ok 1 :=
  (C1_accepted_appends_one [("device_id", .str "esp32-1"),
      ("devices", .arr [sampleSighting])] [sampleSighting] "t0" []
    (.str "esp32-1") rfl rfl (by decide)).2

/-- C5 counterexample: the payload whose device_id value is JSON null is
accepted with a 200 response and stored as is, so a stored Report can have
a null device_id value. -/
theorem C5_counterexample :
    (receive_ble_data (some c5Cex) "t0" []).resp = .ok 0 ∧
    (receive_ble_data (some c5Cex) "t0" []).store =
      [.obj [("device_id", .null), ("devices", .arr []),
             ("received_at", .str "t0")]] ∧
    getItem (.obj [("device_id", .null), ("devices", .arr []),
        ("received_at", .str "t0")]) "device_id" = some .null :=
  ⟨rfl, rfl, rfl⟩

/-- C5 amended: after any sequence of requests whose ingestion clock
readings are all at or after the process start time, every stored Report
is a JSON object containing the keys device_id and devices (values of any
type, null included) and carrying a received_at timestamp at or after
process start. -/
theorem C5_store_invariant (start : String) (reqs : List Request)
    (h : ∀ d? t, Request.ingest d? t ∈ reqs → isoLe start t = true) :
    StoreInv start (runStore reqs) := by
  have haux : ∀ (rs : List Request) (s : List Json),
      (∀ d? t, Request.ingest d? t ∈ rs → isoLe start t = true) →
      StoreInv start s → StoreInv start (List.foldl stepStore s rs) := by
    intro rs
    induction rs with
    | nil => intro s _ hs; exact hs
    | cons r rs ih =>
      intro s hr hs
      rw [List.foldl_cons]
      apply ih
      · intro d? t ht
        exact hr d? t (List.mem_cons_of_mem r ht)
      · cases r with
        | ingest d? t =>
          exact receive_preserves_inv start d? t s
            (hr d? t (List.mem_cons_self _ _)) hs
        | health now => exact hs
        | dataDump => exact hs
        | indexPage => exact hs
  exact haux reqs [] h (fun r hr => absurd hr (List.not_mem_nil r))

/-- Witness for C5 on a one-request run. -/
theorem C5_witness :
    StoreInv "2020" (runStore [.ingest (some c5Cex) "2021"]) :=
  C5_store_invariant "2020" [.ingest (some c5Cex) "2021"]
    (by
      intro d? t ht
      simp only [List.mem_singleton] at ht
      injection ht with h1 h2
      subst h2
      decide)

/-- C6 counterexample: one request whose payload passes validation but
whose devices value is a boolean is answered 500, yet the data dump lists
the stored report and counts one upload, so the dump does not list only
the accepted (200-acknowledged) Reports. -/
theorem C6_counterexample :
    isOk (receive_ble_data (some c6Cex) "t0" []).resp = false ∧
    (get_data (runStore [.ingest (some c6Cex) "t0"])).total_uploads = 1 ∧
    (get_data (runStore [.ingest (some c6Cex) "t0"])).data =
      [.obj [("device_id", .str "x"), ("devices", .bool true),
             ("received_at", .str "t0")]] :=
  ⟨rfl, rfl, rfl⟩

/-- C6 amended: the store is append-only and order preserving across any
sequence of requests (every later store extends the earlier one on the
right, so no reordering, deletion or mutation of an inserted Report ever
happens), and the data dump returns exactly the stored sequence, i.e. the
appended (validation-passing) Reports in arrival order, with total_uploads
equal to its length. -/
theorem C6_append_only_dump (reqs more : List Request) :
    (∃ tail, runStore (reqs ++ more) = runStore reqs ++ tail) ∧
    get_data (runStore reqs) = ⟨(runStore reqs).length, runStore reqs⟩ := by
  constructor
  · unfold runStore
    rw [List.foldl_append]
    exact foldl_stepStore_extends more (List.foldl stepStore [] reqs)
  · rfl

/-- C7 counterexample: after one request that was answered 500 but had
already appended its report, the health endpoint reports devices_received
equal to 1 while the number of accepted (200-acknowledged) ingestions is
0. -/
theorem C7_counterexample :
    (health_check (runAcc [.ingest (some c7Cex) "t0"]).1 "t1").devices_received
        = 1 ∧
    (runAcc [.ingest (some c7Cex) "t0"]).2 = 0 :=
  ⟨rfl, rfl⟩

/-- C7 amended: after any sequence of requests the health endpoint always
succeeds with status ok and devices_received equal to the store length,
the number of appended Reports, which is an upper bound of (and can
exceed) the number of ingestions acknowledged with 200; it is the report
count, not the sighting count. -/
theorem C7_health_reports_store_count (reqs : List Request) (now : String) :
    health_check (runAcc reqs).1 now = ⟨"ok", now, (runAcc reqs).1.length⟩ ∧
    (runAcc reqs).2 ≤ (runAcc reqs).1.length :=
  ⟨rfl, foldl_stepAcc_le reqs [] 0 (Nat.le_refl 0)⟩

/-- C8: for every accepted payload object, the stored Report is exactly
the payload extended with the server-assigned received_at field, and every
top-level field other than received_at is preserved verbatim: present with
an unchanged value. -/
theorem C8_fields_preserved (kvs : List (String × Json)) (now : String)
    (store : List Json) (n : Nat)
    (hok : (receive_ble_data (some (.obj kvs)) now store).resp = .ok n) :
    (receive_ble_data (some (.obj kvs)) now store).store
        = store ++ [.obj (setKey kvs "received_at" (.str now))] ∧
    ∀ k, k ≠ "received_at" →
      lookup (setKey kvs "received_at" (.str now)) k = lookup kvs k := by
  have hext := receive_ok_extends (some (.obj kvs)) now store (by rw [hok]; rfl)
  rcases receive_cases (some (.obj kvs)) now store with h | ⟨kvs2, heq, _, _, h⟩
  · obtain ⟨r, hr⟩ := hext
    rw [h] at hr
    simp at hr
  · have hkk : kvs2 = kvs := by
      simp at heq; exact heq.symm
    subst hkk
    refine ⟨by rw [h, summarize_store], ?_⟩
    intro k hk
    exact lookup_setKey_ne _ _ _ _ (Ne.symm hk)

/-- Witness for C8 at a concrete accepted payload with an extra
pass-through field. -/
theorem C8_witness :
    (receive_ble_data (some (.obj [("device_id", .str "w"),
        ("devices", .arr []), ("battery", .num 93)])) "t0" []).store
      = [.obj [("device_id", .str "w"), ("devices", .arr []),
               ("battery", .num 93), ("received_at", .str "t0")]] :=
  (C8_fields_preserved [("device_id", .str "w"), ("devices", .arr []),
      ("battery", .num 93)] "t0" [] 0 rfl).1

/-- C9: on every accepted payload the log holds exactly min 5 n detail
lines for a payload of n sightings, the one more-line with value n minus 5
is present exactly when n exceeds 5, and the logging leaves the response
and the stored Report untouched: the store gains exactly the one stamped
report whose devices value still has all n sightings. -/
theorem C9_accepted_log_shape (d? : Option Json) (now : String)
    (store : List Json) (n : Nat)
    (h : (receive_ble_data d? now store).resp = .ok n) :
    detailCount (receive_ble_data d? now store).log = min 5 n ∧
    moreLines (receive_ble_data d? now store).log =
      (if 5 < n then [LogLine.more (n - 5)] else []) ∧
    ∃ r, (receive_ble_data d? now store).store = store ++ [r] ∧
      ∃ devs, getItem r "devices" = some devs ∧ pyLen devs = some n := by
  have hext := receive_ok_extends d? now store (by rw [h]; rfl)
  rcases receive_cases d? now store with hc | ⟨kvs, _, _, _, hc⟩
  · obtain ⟨r, hr⟩ := hext
    rw [hc] at hr
    simp at hr
  · rw [hc] at h ⊢
    obtain ⟨h1, h2, devs, hdev, hlen⟩ := summarize_ok_log _ _ n h
    exact ⟨h1, h2, .obj (setKey kvs "received_at" (.str now)),
      summarize_store _ _, devs, hdev, hlen⟩

/-- Witness for C9 at the six-sighting payload: five detail lines and the
more-line carrying 1. -/
theorem C9_witness :
    detailCount (receive_ble_data (some c9Payload) "t0" []).log = min 5 6 ∧
    moreLines (receive_ble_data (some c9Payload) "t0" []).log =
      (if 5 < 6 then [LogLine.more (6 - 5)] else []) :=
  ⟨(C9_accepted_log_shape (some c9Payload) "t0" [] 6 rfl).1,
   (C9_accepted_log_shape (some c9Payload) "t0" [] 6 rfl).2.1⟩

/-- C10 counterexample: the payload whose devices value is the non-empty
string abc contains both keys, and len would give 3, yet the handler
answers 500 (the characters of the sliced string are not dicts), so a
non-array devices value is not in general accepted with received equal to
its length. -/
theorem C10_counterexample :
    objHasKey c10Cex "device_id" = true ∧ objHasKey c10Cex "devices" = true ∧
    pyLen (.str "abc") = some 3 ∧
    (receive_ble_data (some c10Cex) "t0" []).resp = .internalError ∧
    (receive_ble_data (some c10Cex) "t0" []).store.length = 1 :=
  ⟨rfl, rfl, rfl, rfl, rfl⟩

/-- C10 amended: validation checks only the presence of the two keys: for
every object payload containing both keys, whatever the types of the
values, no BadRequest is ever returned and the stamped payload is always
appended to the store; a devices value equal to the empty string (not an
array) is even fully accepted with received equal to its length 0, but
other non-array devices values lead to a 500 response after the append. -/
theorem C10_presence_only_validation (kvs : List (String × Json))
    (now : String) (store : List Json)
    (h1 : kvs.any (fun p => p.1 == "device_id") = true)
    (h2 : kvs.any (fun p => p.1 == "devices") = true) :
    (∀ msg, (receive_ble_data (some (.obj kvs)) now store).resp ≠
      .badRequest msg) ∧
    (receive_ble_data (some (.obj kvs)) now store).store
        = store ++ [.obj (setKey kvs "received_at" (.str now))] ∧
    (lookup kvs "devices" = some (.str "") →
      (receive_ble_data (some (.obj kvs)) now store).resp = .ok 0) := by
  have hsome := lookup_isSome_of_any kvs "device_id" h1
  rcases hl : lookup kvs "device_id" with _ | did
  · rw [hl] at hsome; simp at hsome
  · have ht : pyTruthy (.obj kvs) = true := by
      simp [pyTruthy, isEmpty_false_of_lookup_some kvs "device_id" _ hl]
    have hred : receive_ble_data (some (.obj kvs)) now store =
        summarizeAndRespond (.obj (setKey kvs "received_at" (.str now)))
          (store ++ [.obj (setKey kvs "received_at" (.str now))]) := by
      unfold receive_ble_data
      simp only [pyIn, setItem, ht, h1, h2, Bool.not_true,
        Bool.false_eq_true, if_false]
    refine ⟨?_, ?_, ?_⟩
    · intro msg; rw [hred]; exact summarize_not_badRequest _ _ msg
    · rw [hred, summarize_store]
    · intro hdev
      have hdev2 : lookup (setKey kvs "received_at" (.str now)) "devices"
          = some (.str "") := by
        rw [lookup_setKey_ne _ _ _ _ (by decide)]; exact hdev
      have hdid2 : lookup (setKey kvs "received_at" (.str now)) "device_id"
          = some did := by
        rw [lookup_setKey_ne _ _ _ _ (by decide)]; exact hl
      rw [hred]
      unfold summarizeAndRespond
      simp only [getItem, pyLen, sliceFive, hdev2, hdid2]
      simp [logDetails]

/-- Witness for C10 at the payload whose devices value is the empty
string. -/
theorem C10_witness :
    (receive_ble_data (some (.obj c10Kvs)) "t0" []).resp = .ok 0 :=
  (C10_presence_only_validation c10Kvs "t0" [] (by decide) (by decide)).2.2 rfl
